import Mathlib

/-!
Shallow embedding of `src/flask_tryton.py` (the JonLevy fork of flask-tryton,
including the "jsl patch" that replaces `Transaction().start` with
`conditional_transaction_for_tests`).

The embedding models one invocation of a handler wrapped by
`Tryton.transaction(...)`, i.e. the composition of `retry_transaction`
(lines 46-68) around the inner `wrapper` (lines 190-252), together with the
URL converters `RecordConverter` / `RecordsConverter` (lines 289-320).

Modelling conventions:
* Python exceptions become the inductive `Exc`; raising is `RunResult.exc`.
* The `conditional_transaction_for_tests` context manager (lines 22-41)
  ignores its arguments.  When it needs a new transaction
  (`not config.get('web','testing_flask') or not Transaction().user`) it
  evaluates the free names `database` and `user`, which are not defined at
  module scope of `flask_tryton.py`, so that path raises `NameError`;
  otherwise it yields the already-running ambient `Transaction()` and its
  exit performs nothing (no commit, no rollback).
* The ambient transaction is `Env.ambient`; `Env.started` models
  `bool(Transaction().user)` and `Env.testingFlask` the truthiness of
  `config.get('web', 'testing_flask')`.
* `trytond` internals that the wrapper merely calls (`Cache.clean`,
  `Cache.resets`, `run_task`) have no observable effect on the wrapper's
  results other than the recorded `run_task` call sequence.
* Dict update on the auxiliary context entries is modelled by list
  concatenation of the entry lists; the `_request` entry (the only one the
  wrapper itself manipulates, lines 218-223) is modelled precisely.
-/

/-- The request data copied into the `_request` context entry
(lines 219-222). -/
structure ReqInfo where
  remote_addr : String
  http_host : String
  scheme : String
  is_secure : Bool
deriving DecidableEq, Repr

/-- The parts of a Flask request the wrapper reads. -/
structure Request where
  method : String
  info : ReqInfo
deriving DecidableEq, Repr

/-- State of the `_request` key of a context dict: present but empty
(`setdefault('_request', \x7b\x7d)` with no request), or filled with the
request data. -/
inductive ReqEntry where
  | empty : ReqEntry
  | filled : ReqInfo → ReqEntry
deriving DecidableEq, Repr

/-- A transaction context dict: the `_request` entry (`none` when the key is
absent) plus the remaining entries, abstracted as an association list. -/
structure CtxMap where
  reqEntry : Option ReqEntry
  rest : List (String × String)
deriving DecidableEq, Repr

/-- The exceptions distinguished by `flask_tryton.py`.  `other` stands for
an arbitrary unrelated exception, identified by a tag. -/
inductive Exc where
  | dbOperational : Exc
  | userError : String → Exc
  | userWarning : String → Exc
  | concurrency : String → Exc
  | badRequest : String → Exc
  | nameError : String → Exc
  | other : Nat → Exc
deriving DecidableEq, Repr

/-- The closed set tested by `isinstance(e, (UserError, UserWarning,
ConcurrencyException))` (lines 240-243). -/
def Exc.isDomain : Exc → Bool
  | Exc.userError _ => true
  | Exc.userWarning _ => true
  | Exc.concurrency _ => true
  | _ => false

/-- The `message` attribute read at line 244. -/
def Exc.message : Exc → String
  | Exc.userError m => m
  | Exc.userWarning m => m
  | Exc.concurrency m => m
  | Exc.badRequest m => m
  | Exc.nameError m => m
  | Exc.dbOperational => ""
  | Exc.other _ => ""

/-- The exception leaving the `try` block of the inner wrapper
(lines 237-245): `DatabaseOperationalError` is re-raised as is, the three
domain errors become `BadRequest(e.message)`, everything else is re-raised
unchanged. -/
def handleExc (e : Exc) : Exc :=
  match e with
  | Exc.dbOperational => Exc.dbOperational
  | _ => if e.isDomain then Exc.badRequest e.message else e

/-- Result of one whole wrapped call: the Python return value (a `Nat`
stands for the handler's result object) or a raised exception. -/
inductive RunResult where
  | ok : Nat → RunResult
  | exc : Exc → RunResult
deriving DecidableEq, Repr

/-- Behaviour of one execution of the decorated handler body `func`:
it either returns a value or raises, and in both cases it may have appended
task ids to `transaction.tasks` while running. -/
inductive AttemptResult where
  | ok : Nat → List Nat → AttemptResult
  | err : Exc → List Nat → AttemptResult
deriving DecidableEq, Repr

/-- The ambient Tryton transaction (the one `Transaction()` denotes). -/
structure Txn where
  readonly : Bool
  hasCursor : Bool
  context : CtxMap
  tasks : List Nat
deriving DecidableEq, Repr

/-- Ambient runtime state read by the module. -/
structure Env where
  testingFlask : Bool
  started : Bool
  ambient : Txn
  oldTrytond : Bool
  contextCallback : Option (List (String × String))
  retry : Nat
deriving DecidableEq, Repr

/-- The decorator arguments of `Tryton.transaction(readonly, user, context)`
after resolving value-or-callable with `get_value`.  The `user` argument has
no observable effect in this fork (the patched transaction starter ignores
it), so it is omitted. -/
structure TransactionConfig where
  readonly : Option Bool
  context : Option (List (String × String))
deriving DecidableEq, Repr

/-- The tuple tested by `Tryton._readonly` (line 156). -/
def writeMethods : List String := ["PUT", "POST", "DELETE", "PATCH"]

/-- `Tryton._readonly` (lines 154-156): readonly unless a request is present
whose method is one of PUT, POST, DELETE, PATCH. -/
def readonlyDefault (req : Option Request) : Bool :=
  match req with
  | none => true
  | some r => !(writeMethods.contains r.method)

/-- The `is_readonly` value computed at lines 203-206. -/
def resolvedReadonly (cfg : TransactionConfig) (req : Option Request) : Bool :=
  match cfg.readonly with
  | none => readonlyDefault req
  | some b => b

/-- `need_new_transaction` of `conditional_transaction_for_tests`
(lines 28-31). -/
def needNew (env : Env) : Bool :=
  !(env.testingFlask && env.started)

/-- The `transaction_context` dict as it stands after lines 208-223:
the context callback's entries updated with the `context` argument's
entries, then `setdefault('_request', \x7b\x7d)` updated with the request data
when a request is present. -/
def buildContext (cb : Option (List (String × String)))
    (ctxArg : Option (List (String × String))) (req : Option Request) :
    CtxMap :=
  let rest := cb.getD [] ++ ctxArg.getD []
  match req with
  | some r => ⟨some (ReqEntry.filled r.info), rest⟩
  | none => ⟨some ReqEntry.empty, rest⟩

/-- Observations of one execution of the inner wrapper body
(lines 190-252): result, number of explicit `transaction.cursor.commit()`
calls, the `run_task` call sequence, whether the handler body ran, the
state of `transaction.tasks` afterwards, and the `transaction_context`
dict that was built (`none` when control never reached line 218). -/
structure AttemptObs where
  result : RunResult
  commits : Nat
  ran : List Nat
  bodyRan : Bool
  tasksAfter : List Nat
  ctxBuilt : Option CtxMap
deriving DecidableEq, Repr

/-- One execution of the inner wrapper (lines 190-252) given the handler
body's behaviour `a` and the current `transaction.tasks` list `tasksIn`.

Control flow of the source:
* lines 193-196: on old trytond, `conditional_transaction_for_tests` is
  entered for `Cache.clean`; with `need_new_transaction` it raises
  `NameError` (undefined `database`).
* lines 209-216: same for the context-callback block, entered only when a
  callback or a `context` argument is present.
* lines 218-223: the `_request` entry is merged into `transaction_context`.
* line 226: `conditional_transaction_for_tests` again: `NameError` when a
  new transaction is needed, otherwise the ambient transaction is reused
  (its own readonly flag and context; the computed `transaction_context`,
  user and readonly arguments are ignored by the patch).
* lines 230-245: the handler runs; on success
  `transaction.cursor.commit()` iff the transaction has a legacy `cursor`
  attribute and `is_readonly` is false; exceptions per `handleExc`.
* lines 248-251: after the `with` block exits normally, the task queue is
  drained with `transaction.tasks.pop()`, i.e. from the end. -/
def attemptRun (env : Env) (cfg : TransactionConfig) (req : Option Request)
    (a : AttemptResult) (tasksIn : List Nat) : AttemptObs :=
  if env.oldTrytond && needNew env then
    ⟨RunResult.exc (Exc.nameError "database"), 0, [], false, tasksIn, none⟩
  else if (env.contextCallback.isSome || cfg.context.isSome) && needNew env then
    ⟨RunResult.exc (Exc.nameError "database"), 0, [], false, tasksIn, none⟩
  else
    let ctx := buildContext env.contextCallback cfg.context req
    if needNew env then
      ⟨RunResult.exc (Exc.nameError "database"), 0, [], false, tasksIn,
        some ctx⟩
    else
      match a with
      | AttemptResult.ok v queued =>
          ⟨RunResult.ok v,
            if env.ambient.hasCursor && !(resolvedReadonly cfg req) then 1
              else 0,
            (tasksIn ++ queued).reverse, true, [], some ctx⟩
      | AttemptResult.err e queued =>
          ⟨RunResult.exc (handleExc e), 0, [], true, tasksIn ++ queued,
            some ctx⟩

/-- Cumulative observations of the whole wrapped call (all retry
attempts). -/
structure Outcome where
  result : RunResult
  commits : Nat
  ran : List Nat
  handlerRuns : Nat
  tasksAfter : List Nat
  ctxBuilt : Option CtxMap
deriving DecidableEq, Repr

/-- Fold one attempt's observations into the accumulated ones when the loop
stops (either a return or a re-raise). -/
def finishAttempt (o : AttemptObs) (aC : Nat) (aR : List Nat) (aN : Nat) :
    Outcome :=
  ⟨o.result, aC + o.commits, aR ++ o.ran,
    aN + (if o.bodyRan then 1 else 0), o.tasksAfter, o.ctxBuilt⟩

/-- The loop of `retry_transaction` (lines 58-68):
`for count in range(retry, -1, -1)` runs the wrapped function; on
`DatabaseOperationalError` it continues when `count` is nonzero and the
ambient transaction is not readonly (`if count and not
Transaction().readonly`), otherwise it re-raises.  The first argument is
`count`; `idx` numbers the attempts so that `handler idx` gives the
handler body's behaviour on that attempt. -/
def runFrom (env : Env) (cfg : TransactionConfig) (req : Option Request)
    (handler : Nat → AttemptResult) :
    Nat → Nat → List Nat → Nat → List Nat → Nat → Outcome
  | 0, idx, tasksIn, aC, aR, aN =>
      finishAttempt (attemptRun env cfg req (handler idx) tasksIn) aC aR aN
  | c + 1, idx, tasksIn, aC, aR, aN =>
      let o := attemptRun env cfg req (handler idx) tasksIn
      if o.result = RunResult.exc Exc.dbOperational
          ∧ env.ambient.readonly = false then
        runFrom env cfg req handler c (idx + 1) o.tasksAfter (aC + o.commits)
          (aR ++ o.ran) (aN + (if o.bodyRan then 1 else 0))
      else
        finishAttempt o aC aR aN

/-- One invocation of a handler wrapped by `Tryton.transaction(...)`:
`retry_transaction` around the inner wrapper, starting with
`count = tryton.database_retry` and the ambient transaction's current task
queue. -/
def transactionCall (env : Env) (cfg : TransactionConfig)
    (req : Option Request) (handler : Nat → AttemptResult) : Outcome :=
  runFrom env cfg req handler env.retry 0 env.ambient.tasks 0 [] 0

/-- The proxy produced by the URL converters: `_RecordsProxy(model, ids)`
(`_RecordProxy` is the special case of a singleton id list). -/
structure RecordsProxy where
  model : String
  ids : List Nat
deriving DecidableEq, Repr

/-!
URL path segments are modelled as their character sequences (`List Char`).
The helpers below are the relevant Python primitives: `str.split(',')`,
`int` on a digit string, and `str` of an integer.
-/

/-- Worker for `splitOnChar`, accumulating the current piece reversed. -/
def splitOnCharAux (sep : Char) : List Char → List Char → List (List Char)
  | [], acc => [acc.reverse]
  | c :: cs, acc =>
      if c = sep then acc.reverse :: splitOnCharAux sep cs []
      else splitOnCharAux sep cs (c :: acc)

/-- Python `value.split(sep)` for a one-character separator. -/
def splitOnChar (sep : Char) (s : List Char) : List (List Char) :=
  splitOnCharAux sep s []

/-- Python `int(value)` on a digit string (the converter regexes `\d+` and
`\d+(,\d+)*` guarantee every piece is a nonempty digit string). -/
def parseNat (s : List Char) : Nat :=
  s.foldl (fun n c => 10 * n + (c.toNat - 48)) 0

/-- Worker for `natToChars`; the fuel starts at `n + 1`, which is plenty
since the number of decimal digits of `n` is at most `n + 1`. -/
def natDigitsAux : Nat → Nat → List Char → List Char
  | 0, _, acc => acc
  | fuel + 1, n, acc =>
      let d := Char.ofNat (48 + n % 10)
      if n < 10 then d :: acc else natDigitsAux fuel (n / 10) (d :: acc)

/-- Python `str(n)` for a natural number. -/
def natToChars (n : Nat) : List Char := natDigitsAux (n + 1) n []

/-- Python `','.join(pieces)`. -/
def joinWithComma : List (List Char) → List Char
  | [] => []
  | [x] => x
  | x :: xs => x ++ ',' :: joinWithComma xs

/-- `RecordConverter.to_python` (lines 299-300): the path segment becomes a
`_RecordProxy(model, int(value))`, i.e. a proxy over the single parsed
id. -/
def RecordConverter.toPython (model : String) (value : List Char) :
    RecordsProxy :=
  ⟨model, [parseNat value]⟩

/-- `RecordConverter.to_url` (lines 302-303): `str(int(value))`, where
`int` of a `_RecordProxy` is its first id (lines 282-283). -/
def RecordConverter.toUrl (p : RecordsProxy) : List Char :=
  natToChars (p.ids.headD 0)

/-- `RecordsConverter.to_python` (lines 316-317):
`_RecordsProxy(model, map(int, value.split(',')))`. -/
def RecordsConverter.toPython (model : String) (value : List Char) :
    RecordsProxy :=
  ⟨model, (splitOnChar ',' value).map parseNat⟩

/-- `RecordsConverter.to_url` (lines 319-320):
`','.join(map(str, map(int, value)))` over the proxy's ids. -/
def RecordsConverter.toUrl (p : RecordsProxy) : List Char :=
  joinWithComma (p.ids.map natToChars)

/-!
Helper lemmas about single attempts.
-/

/-- In test mode with a running ambient transaction, a successful handler
attempt commits explicitly iff the transaction has a legacy cursor and the
resolved readonly flag is false, and drains the task queue from the end. -/
theorem attemptRun_ok {env : Env} {cfg : TransactionConfig}
    {req : Option Request} (ht : env.testingFlask = true)
    (hs : env.started = true) (v : Nat) (queued tasksIn : List Nat) :
    attemptRun env cfg req (AttemptResult.ok v queued) tasksIn =
      ⟨RunResult.ok v,
        if env.ambient.hasCursor && !(resolvedReadonly cfg req) then 1 else 0,
        (tasksIn ++ queued).reverse, true, [],
        some (buildContext env.contextCallback cfg.context req)⟩ := by
  simp [attemptRun, needNew, ht, hs]

/-- In test mode with a running ambient transaction, a raising handler
attempt produces `handleExc e`, commits nothing and drains nothing. -/
theorem attemptRun_err {env : Env} {cfg : TransactionConfig}
    {req : Option Request} (ht : env.testingFlask = true)
    (hs : env.started = true) (e : Exc) (queued tasksIn : List Nat) :
    attemptRun env cfg req (AttemptResult.err e queued) tasksIn =
      ⟨RunResult.exc (handleExc e), 0, [], true, tasksIn ++ queued,
        some (buildContext env.contextCallback cfg.context req)⟩ := by
  simp [attemptRun, needNew, ht, hs]

/-- A domain error is translated to `BadRequest` with the same message. -/
theorem handleExc_domain {e : Exc} (h : e.isDomain = true) :
    handleExc e = Exc.badRequest e.message := by
  cases e <;> simp_all [handleExc, Exc.isDomain]

/-- A non-domain error passes through `handleExc` unchanged. -/
theorem handleExc_nondomain {e : Exc} (h : e.isDomain = false) :
    handleExc e = e := by
  cases e <;> simp_all [handleExc, Exc.isDomain]

/-- An attempt that raises performs no `run_task` call. -/
theorem attemptRun_exc_ran (env : Env) (cfg : TransactionConfig)
    (req : Option Request) (a : AttemptResult) (tasksIn : List Nat)
    (e : Exc)
    (h : (attemptRun env cfg req a tasksIn).result = RunResult.exc e) :
    (attemptRun env cfg req a tasksIn).ran = [] := by
  cases a <;> unfold attemptRun at h ⊢ <;> split at h <;> simp_all <;>
    split at h <;> simp_all <;> split at h <;> simp_all

/-!
Concrete states used as inputs of the witnesses and counterexamples.
-/

/-- A read-write ambient transaction with a legacy cursor, empty context
and no pending tasks. -/
def txnBase : Txn := ⟨false, true, ⟨none, []⟩, []⟩

/-- Test mode, ambient transaction running, modern trytond, no context
callback, two configured retries. -/
def envTest : Env := ⟨true, true, txnBase, false, none, 2⟩

/-- Like `envTest` but the ambient transaction is readonly. -/
def envTestRO : Env := ⟨true, true, ⟨true, true, ⟨none, []⟩, []⟩, false, none, 2⟩

/-- Like `envTest` but only one configured retry. -/
def envTest1 : Env := ⟨true, true, txnBase, false, none, 1⟩

/-- Like `envTest` but the ambient transaction has no legacy cursor. -/
def envTestNoCursor : Env :=
  ⟨true, true, ⟨false, false, ⟨none, []⟩, []⟩, false, none, 2⟩

/-- Production mode: `web.testing_flask` is unset, so
`conditional_transaction_for_tests` must start a new transaction. -/
def envProd : Env := ⟨false, true, txnBase, false, none, 0⟩

/-- Decorator arguments forcing a read-write transaction. -/
def cfgRW : TransactionConfig := ⟨some false, none⟩

/-- Decorator arguments forcing a readonly transaction. -/
def cfgRO : TransactionConfig := ⟨some true, none⟩

/-- A POST request. -/
def reqPost : Request := ⟨"POST", ⟨"203.0.113.7", "example.test", "https", true⟩⟩

/-!
Claims.
-/

/-- Claim C7: the `record(model)` converter parses the path segment `42` to
a deferred reference over exactly the single id 42 of the given model, the
`records(model)` converter parses `3,5,9` to a reference over the ids
3, 5, 9 in that order, and converting either reference back to a URL
segment yields the original text. -/
theorem c7_converters :
    RecordConverter.toPython "res.user" ['4', '2'] = ⟨"res.user", [42]⟩ ∧
    RecordConverter.toUrl
      (RecordConverter.toPython "res.user" ['4', '2']) = ['4', '2'] ∧
    RecordsConverter.toPython "res.user" ['3', ',', '5', ',', '9']
      = ⟨"res.user", [3, 5, 9]⟩ ∧
    RecordsConverter.toUrl
        (RecordsConverter.toPython "res.user" ['3', ',', '5', ',', '9'])
      = ['3', ',', '5', ',', '9'] := by
  decide

/-- Claim C8, evaluated at a failing input: with `web.testing_flask` unset
(`envProd`), the wrapper computes the `transaction_context` dict with a
filled `_request` entry exactly as the claim describes, but
`conditional_transaction_for_tests` then raises `NameError` on the
undefined module globals `database` and `user`, so no transaction is ever
opened and the handler never runs: no transaction context containing the
`_request` entry exists.  (In test mode the computed dict is likewise
discarded and the ambient transaction's own context is reused.) -/
theorem c8_context_dropped :
    (transactionCall envProd cfgRW (some reqPost)
        (fun _ => AttemptResult.ok 1 [])).ctxBuilt
      = some ⟨some (ReqEntry.filled reqPost.info), []⟩ ∧
    (transactionCall envProd cfgRW (some reqPost)
        (fun _ => AttemptResult.ok 1 [])).result
      = RunResult.exc (Exc.nameError "database") ∧
    (transactionCall envProd cfgRW (some reqPost)
        (fun _ => AttemptResult.ok 1 [])).handlerRuns = 0 := by
  decide

/-- Claim C1, counterexample: a read-write invocation (ambient transaction
not readonly, `envTest1` with one configured retry) whose handler raises
`DatabaseOperationalError` IS retried: the handler body runs twice, so the
error does not surface on its first occurrence as the claim states. -/
theorem c1_counterexample :
    (transactionCall envTest1 cfgRW none
        (fun _ => AttemptResult.err Exc.dbOperational [])).result
      = RunResult.exc Exc.dbOperational ∧
    (transactionCall envTest1 cfgRW none
        (fun _ => AttemptResult.err Exc.dbOperational [])).handlerRuns = 2 ∧
    (2 : Nat) ≠ 1 := by
  decide

/-- Claim C2, counterexample: a successful invocation that queued the tasks
1 and 2 (in that order) submits them to `run_task` as 2 then 1 — the drain
loop pops from the end of `transaction.tasks` — not in queueing order as
the claim states. -/
theorem c2_counterexample :
    (transactionCall envTest cfgRW none
        (fun _ => AttemptResult.ok 0 [1, 2])).result = RunResult.ok 0 ∧
    (transactionCall envTest cfgRW none
        (fun _ => AttemptResult.ok 0 [1, 2])).ran = [2, 1] ∧
    ([2, 1] : List Nat) ≠ [1, 2] := by
  decide

/-- Claim C3, counterexample: with the transaction readonly (`envTestRO`),
one conflict followed by success, and two configured retries, the wrapped
call does NOT return the success result: `retry_transaction` only retries
when the transaction is not readonly, so the first
`DatabaseOperationalError` is re-raised and the handler body runs once. -/
theorem c3_counterexample :
    (transactionCall envTestRO cfgRO none
        (fun i => if i = 0 then AttemptResult.err Exc.dbOperational []
          else AttemptResult.ok 7 [])).result
      = RunResult.exc Exc.dbOperational ∧
    (transactionCall envTestRO cfgRO none
        (fun i => if i = 0 then AttemptResult.err Exc.dbOperational []
          else AttemptResult.ok 7 [])).handlerRuns = 1 ∧
    RunResult.exc Exc.dbOperational ≠ RunResult.ok 7 := by
  decide

/-- Claim C5, counterexample: a successful read-write invocation on a
transaction without the legacy `cursor` attribute (`envTestNoCursor`,
modern trytond) is never explicitly committed: the commit guard
`hasattr(transaction, 'cursor')` fails, and the patched context manager
does not commit either, so the commit count is 0, not 1. -/
theorem c5_counterexample :
    (transactionCall envTestNoCursor cfgRW none
        (fun _ => AttemptResult.ok 7 [])).result = RunResult.ok 7 ∧
    (transactionCall envTestNoCursor cfgRW none
        (fun _ => AttemptResult.ok 7 [])).commits = 0 ∧
    (0 : Nat) ≠ 1 := by
  decide

/-- Claim C6, counterexample: a successful readonly invocation performs no
commit at all, yet its queued task 5 is still submitted to `run_task`: the
drain loop is gated on the handler returning successfully, not on a
commit having been performed. -/
theorem c6_counterexample :
    (transactionCall envTest cfgRO none
        (fun _ => AttemptResult.ok 1 [5])).commits = 0 ∧
    (transactionCall envTest cfgRO none
        (fun _ => AttemptResult.ok 1 [5])).ran = [5] ∧
    ([5] : List Nat) ≠ [] := by
  decide

/-- Claim C1 as amended: a transient conflict is retried only while the
transaction is NOT readonly; when the ambient transaction is readonly, the
`DatabaseOperationalError` is re-raised on its first occurrence (the
handler body runs exactly once). -/
theorem c1_amended (env : Env) (cfg : TransactionConfig)
    (req : Option Request) (handler : Nat → AttemptResult) (q : List Nat)
    (ht : env.testingFlask = true) (hs : env.started = true)
    (hro : env.ambient.readonly = true)
    (hh : handler 0 = AttemptResult.err Exc.dbOperational q) :
    (transactionCall env cfg req handler).result
      = RunResult.exc Exc.dbOperational ∧
    (transactionCall env cfg req handler).handlerRuns = 1 := by
  cases hr : env.retry with
  | zero =>
      simp [transactionCall, hr, runFrom, hh, attemptRun_err ht hs,
        finishAttempt, handleExc]
  | succ c =>
      simp [transactionCall, hr, runFrom, hh, attemptRun_err ht hs,
        finishAttempt, handleExc, hro]

/-- Witness for `c1_amended` at a concrete readonly environment. -/
theorem c1_amended_witness :
    (transactionCall envTestRO cfgRO none
        (fun _ => AttemptResult.err Exc.dbOperational [])).result
      = RunResult.exc Exc.dbOperational ∧
    (transactionCall envTestRO cfgRO none
        (fun _ => AttemptResult.err Exc.dbOperational [])).handlerRuns = 1 :=
  c1_amended envTestRO cfgRO none
    (fun _ => AttemptResult.err Exc.dbOperational []) [] rfl rfl rfl rfl

/-- Claim C2 as amended: a successful invocation (here: first attempt
succeeds, no tasks pending beforehand) submits each task queued during the
transaction to `run_task` exactly once, but in REVERSE of the order in
which they were queued, because the drain loop pops from the end of
`transaction.tasks`. -/
theorem c2_amended (env : Env) (cfg : TransactionConfig)
    (req : Option Request) (handler : Nat → AttemptResult) (v : Nat)
    (q : List Nat) (ht : env.testingFlask = true) (hs : env.started = true)
    (htasks : env.ambient.tasks = [])
    (hh : handler 0 = AttemptResult.ok v q) :
    (transactionCall env cfg req handler).result = RunResult.ok v ∧
    (transactionCall env cfg req handler).ran = q.reverse := by
  cases hr : env.retry <;>
    simp [transactionCall, hr, runFrom, hh, attemptRun_ok ht hs,
      finishAttempt, htasks]

/-- Witness for `c2_amended`: tasks queued as 1, 2, 3 run as 3, 2, 1. -/
theorem c2_amended_witness :
    (transactionCall envTest cfgRW none
        (fun _ => AttemptResult.ok 7 [1, 2, 3])).result = RunResult.ok 7 ∧
    (transactionCall envTest cfgRW none
        (fun _ => AttemptResult.ok 7 [1, 2, 3])).ran = [1, 2, 3].reverse :=
  c2_amended envTest cfgRW none (fun _ => AttemptResult.ok 7 [1, 2, 3]) 7
    [1, 2, 3] rfl rfl rfl rfl

/-- Claim C4: when the handler raises a domain error (`UserError`,
`UserWarning` or `ConcurrencyException`), the wrapped call raises
`BadRequest` with the original error's message, the original error type is
not propagated, no commit is performed and no task is submitted. -/
theorem c4_bad_request (env : Env) (cfg : TransactionConfig)
    (req : Option Request) (handler : Nat → AttemptResult) (e : Exc)
    (q : List Nat) (ht : env.testingFlask = true) (hs : env.started = true)
    (hdom : e.isDomain = true)
    (hh : handler 0 = AttemptResult.err e q) :
    (transactionCall env cfg req handler).result
      = RunResult.exc (Exc.badRequest e.message) ∧
    (transactionCall env cfg req handler).commits = 0 ∧
    (transactionCall env cfg req handler).ran = [] := by
  have hhe := handleExc_domain hdom
  cases hr : env.retry <;>
    simp [transactionCall, hr, runFrom, hh, attemptRun_err ht hs,
      finishAttempt, hhe]

/-- Witness for `c4_bad_request` with a concrete `UserError`. -/
theorem c4_bad_request_witness :
    (transactionCall envTest cfgRW none
        (fun _ => AttemptResult.err (Exc.userError "invalid") [])).result
      = RunResult.exc (Exc.badRequest "invalid") ∧
    (transactionCall envTest cfgRW none
        (fun _ => AttemptResult.err (Exc.userError "invalid") [])).commits
      = 0 ∧
    (transactionCall envTest cfgRW none
        (fun _ => AttemptResult.err (Exc.userError "invalid") [])).ran
      = [] :=
  c4_bad_request envTest cfgRW none
    (fun _ => AttemptResult.err (Exc.userError "invalid") [])
    (Exc.userError "invalid") [] rfl rfl rfl rfl

/-- Claim C5 as amended: on a successful invocation the wrapper performs
an explicit commit exactly once if and only if the transaction exposes the
legacy `cursor` attribute AND the resolved readonly flag is false; in
particular a readonly transaction is never explicitly committed, and on a
cursor-less (modern trytond) transaction this fork performs no commit at
all, since the patched context manager commits nothing on exit. -/
theorem c5_amended (env : Env) (cfg : TransactionConfig)
    (req : Option Request) (handler : Nat → AttemptResult) (v : Nat)
    (q : List Nat) (ht : env.testingFlask = true) (hs : env.started = true)
    (hh : handler 0 = AttemptResult.ok v q) :
    (transactionCall env cfg req handler).result = RunResult.ok v ∧
    (transactionCall env cfg req handler).commits
      = (if env.ambient.hasCursor && !(resolvedReadonly cfg req) then 1
          else 0) := by
  cases hr : env.retry <;>
    simp [transactionCall, hr, runFrom, hh, attemptRun_ok ht hs,
      finishAttempt]

/-- Witness for `c5_amended`: with a legacy cursor and a read-write
configuration the commit happens exactly once. -/
theorem c5_amended_witness :
    (transactionCall envTest cfgRW none
        (fun _ => AttemptResult.ok 3 [])).result = RunResult.ok 3 ∧
    (transactionCall envTest cfgRW none
        (fun _ => AttemptResult.ok 3 [])).commits
      = (if envTest.ambient.hasCursor && !(resolvedReadonly cfgRW none)
          then 1 else 0) :=
  c5_amended envTest cfgRW none (fun _ => AttemptResult.ok 3 []) 3 [] rfl
    rfl rfl

/-- Claim C9: when the handler raises an error that is neither a domain
error nor a `DatabaseOperationalError`, the wrapped call propagates that
same exception unchanged and no commit is performed. -/
theorem c9_passthrough (env : Env) (cfg : TransactionConfig)
    (req : Option Request) (handler : Nat → AttemptResult) (e : Exc)
    (q : List Nat) (ht : env.testingFlask = true) (hs : env.started = true)
    (hdom : e.isDomain = false) (hdb : e ≠ Exc.dbOperational)
    (hh : handler 0 = AttemptResult.err e q) :
    (transactionCall env cfg req handler).result = RunResult.exc e ∧
    (transactionCall env cfg req handler).commits = 0 := by
  have hhe := handleExc_nondomain hdom
  cases hr : env.retry with
  | zero =>
      simp [transactionCall, hr, runFrom, hh, attemptRun_err ht hs,
        finishAttempt, hhe]
  | succ c =>
      simp [transactionCall, hr, runFrom, hh, attemptRun_err ht hs,
        finishAttempt, hhe, hdb]

/-- Witness for `c9_passthrough` with a concrete unrelated exception. -/
theorem c9_passthrough_witness :
    (transactionCall envTest cfgRW none
        (fun _ => AttemptResult.err (Exc.other 3) [])).result
      = RunResult.exc (Exc.other 3) ∧
    (transactionCall envTest cfgRW none
        (fun _ => AttemptResult.err (Exc.other 3) [])).commits = 0 :=
  c9_passthrough envTest cfgRW none
    (fun _ => AttemptResult.err (Exc.other 3) []) (Exc.other 3) [] rfl rfl
    rfl (by decide) rfl

/-- Claim C10, evaluated at failing inputs: with the decorator's readonly
argument `None` and no current request, the wrapper resolves `is_readonly`
to true — but the flag is never forwarded to the transaction the handler
runs in.  In the fork's working path (test mode, `envTest1`) the handler
runs in the ambient transaction, here read-write: a
`DatabaseOperationalError` is retried (the handler body runs twice), which
the retry guard at line 65 does only when `Transaction().readonly` is
false — so the invocation did NOT run in a read-only transaction despite
the default.  In production mode (`envProd`) the call raises `NameError`
on the undefined globals `database`/`user` before any transaction is
opened at all. -/
theorem c10_readonly_not_forwarded :
    resolvedReadonly ⟨none, none⟩ none = true ∧
    (transactionCall envTest1 ⟨none, none⟩ none
        (fun _ => AttemptResult.err Exc.dbOperational [])).handlerRuns
      = 2 ∧
    envTest1.ambient.readonly = false ∧
    (transactionCall envProd ⟨none, none⟩ none
        (fun _ => AttemptResult.ok 1 [])).result
      = RunResult.exc (Exc.nameError "database") := by
  decide

/-- The retry loop preserves the `run_task` accumulator on every failing
path: when the whole call raises, no `run_task` beyond the accumulated
ones was performed. -/
theorem runFrom_exc_ran (env : Env) (cfg : TransactionConfig)
    (req : Option Request) (handler : Nat → AttemptResult) (c : Nat) :
    ∀ (idx : Nat) (tasksIn : List Nat) (aC : Nat) (aR : List Nat)
      (aN : Nat) (e : Exc),
    (runFrom env cfg req handler c idx tasksIn aC aR aN).result
      = RunResult.exc e →
    (runFrom env cfg req handler c idx tasksIn aC aR aN).ran = aR := by
  induction c with
  | zero =>
      intro idx tasksIn aC aR aN e h
      simp only [runFrom, finishAttempt] at h ⊢
      rw [attemptRun_exc_ran env cfg req (handler idx) tasksIn e h]
      simp
  | succ c ih =>
      intro idx tasksIn aC aR aN e h
      simp only [runFrom] at h ⊢
      by_cases hc : (attemptRun env cfg req (handler idx) tasksIn).result
            = RunResult.exc Exc.dbOperational
          ∧ env.ambient.readonly = false
      · rw [if_pos hc] at h ⊢
        have hran := attemptRun_exc_ran env cfg req (handler idx) tasksIn
          Exc.dbOperational hc.1
        rw [hran] at h ⊢
        have := ih (idx + 1) _ _ (aR ++ []) _ e h
        simpa using this
      · rw [if_neg hc] at h ⊢
        simp only [finishAttempt] at h ⊢
        rw [attemptRun_exc_ran env cfg req (handler idx) tasksIn e h]
        simp

/-- Claim C6 as amended: no queued task is ever submitted to `run_task`
when the wrapped call does not return successfully; draining is gated on
the handler returning (and, per the counterexample, not on a commit having
occurred). -/
theorem c6_amended (env : Env) (cfg : TransactionConfig)
    (req : Option Request) (handler : Nat → AttemptResult) (e : Exc)
    (h : (transactionCall env cfg req handler).result = RunResult.exc e) :
    (transactionCall env cfg req handler).ran = [] := by
  unfold transactionCall at h ⊢
  exact runFrom_exc_ran env cfg req handler env.retry 0 env.ambient.tasks
    0 [] 0 e h

/-- Witness for `c6_amended`: a failing invocation that queued task 8
submits nothing. -/
theorem c6_amended_witness :
    (transactionCall envTest cfgRW none
        (fun _ => AttemptResult.err (Exc.userError "stop") [8])).ran
      = [] :=
  c6_amended envTest cfgRW none
    (fun _ => AttemptResult.err (Exc.userError "stop") [8])
    (Exc.badRequest "stop") (by decide)

/-- The retry loop of `retry_transaction` on a non-readonly transaction:
`n` conflicts followed by a success, with at least `n` retries budgeted,
end in the success result after exactly `n + 1` handler executions. -/
theorem runFrom_retry_ok (env : Env) (cfg : TransactionConfig)
    (req : Option Request) (ht : env.testingFlask = true)
    (hs : env.started = true) (hro : env.ambient.readonly = false) :
    ∀ (n : Nat) (handler : Nat → AttemptResult) (c idx : Nat)
      (tasksIn : List Nat) (aC : Nat) (aR : List Nat) (aN v : Nat)
      (q : List Nat),
    (∀ i, i < n →
      handler (idx + i) = AttemptResult.err Exc.dbOperational []) →
    handler (idx + n) = AttemptResult.ok v q → n ≤ c →
    (runFrom env cfg req handler c idx tasksIn aC aR aN).result
      = RunResult.ok v ∧
    (runFrom env cfg req handler c idx tasksIn aC aR aN).handlerRuns
      = aN + (n + 1) := by
  intro n
  induction n with
  | zero =>
      intro handler c idx tasksIn aC aR aN v q hfail hok hle
      have hidx : handler idx = AttemptResult.ok v q := by simpa using hok
      cases c with
      | zero =>
          simp [runFrom, hidx, attemptRun_ok ht hs, finishAttempt]
      | succ c =>
          simp [runFrom, hidx, attemptRun_ok ht hs, finishAttempt]
  | succ m ih =>
      intro handler c idx tasksIn aC aR aN v q hfail hok hle
      cases c with
      | zero => exact absurd hle (by omega)
      | succ c =>
          have hidx : handler idx = AttemptResult.err Exc.dbOperational []
            := by simpa using hfail 0 (Nat.succ_pos m)
          have hfail2 : ∀ i, i < m →
              handler (idx + 1 + i) = AttemptResult.err Exc.dbOperational []
            := by
              intro i hi
              have h2 := hfail (i + 1) (by omega)
              rw [show idx + 1 + i = idx + (i + 1) by omega]
              exact h2
          have hok2 : handler (idx + 1 + m) = AttemptResult.ok v q := by
            rw [show idx + 1 + m = idx + (m + 1) by omega]
            exact hok
          obtain ⟨h1, h2⟩ := ih handler c (idx + 1) tasksIn aC aR (aN + 1)
            v q hfail2 hok2 (by omega)
          simp only [runFrom, hidx, attemptRun_err ht hs, handleExc, hro]
          constructor
          · simpa using h1
          · have h3 : aN + 1 + (m + 1) = aN + (m + 1 + 1) := by omega
            simpa [h3] using h2

/-- Claim C3 as amended: when the handler raises
`DatabaseOperationalError` on its first `n` attempts and then succeeds,
with the configured retry count at least `n` and the transaction NOT
readonly (retry only happens for non-readonly transactions), the wrapped
call returns the handler's success result and the handler body executes
exactly `n + 1` times. -/
theorem c3_amended (env : Env) (cfg : TransactionConfig)
    (req : Option Request) (handler : Nat → AttemptResult) (n v : Nat)
    (q : List Nat) (ht : env.testingFlask = true) (hs : env.started = true)
    (hro : env.ambient.readonly = false)
    (hfail : ∀ i, i < n →
      handler i = AttemptResult.err Exc.dbOperational [])
    (hok : handler n = AttemptResult.ok v q) (hle : n ≤ env.retry) :
    (transactionCall env cfg req handler).result = RunResult.ok v ∧
    (transactionCall env cfg req handler).handlerRuns = n + 1 := by
  have h := runFrom_retry_ok env cfg req ht hs hro n handler env.retry 0
    env.ambient.tasks 0 [] 0 v q
    (by intro i hi; simpa using hfail i hi) (by simpa using hok) hle
  simpa [transactionCall] using h

/-- Witness for `c3_amended`: two conflicts then success, within the two
configured retries of `envTest`, gives the success result after three
handler executions. -/
theorem c3_amended_witness :
    (transactionCall envTest cfgRW none
        (fun i => if i < 2 then AttemptResult.err Exc.dbOperational []
          else AttemptResult.ok 9 [])).result = RunResult.ok 9 ∧
    (transactionCall envTest cfgRW none
        (fun i => if i < 2 then AttemptResult.err Exc.dbOperational []
          else AttemptResult.ok 9 [])).handlerRuns = 2 + 1 :=
  c3_amended envTest cfgRW none
    (fun i => if i < 2 then AttemptResult.err Exc.dbOperational []
      else AttemptResult.ok 9 [])
    2 9 [] rfl rfl rfl (fun i hi => by simp [hi]) (by decide) (by decide)
